import Mathlib

/-!
Shallow embedding of the EQMS/CAAQMS scraper (`src/main.py`) and proofs about it.

Modelling conventions:
* Python `str` values are modelled as `List Char`; raw byte sizes of files are
  modelled by summing the UTF-8 size of each character (the program opens all
  files with `encoding='utf-8'`).
* Python character predicates (`isdigit`, `isprintable`, `upper`) are modelled
  on ASCII text, which is the only text the claims and the scraped dashboard
  values exercise.
* Python floats are modelled as exact rationals (`ℚ`); `float(x)` is modelled
  only on strings made of decimal digits and dots, the only shapes that reach
  it through the digit filter in `Param.set_float_check_value`.
* A Python method that can raise is modelled as returning `Except`; for
  `Param.set_float_check_value` the error payload is the object state at the
  moment the uncaught `ValueError` escapes (the fields assigned before the
  `try` block keep their new values).
* All real time, the Selenium driver and the filesystem are abstracted: the
  driver is an `Oracle` answering the three kinds of element queries a station
  makes, file writes are returned as data, and `time.sleep(0.5)` slices are
  counted instead of performed.
-/

/-- The six ASCII whitespace characters Python's `str.split()` (no argument)
splits on. -/
def isPySpace (c : Char) : Bool :=
  c = ' ' || c = '\t' || c = '\n' || c = '\r' || c = '\x0b' || c = '\x0c'

/-- Helper for `pySplit`: walks the string accumulating the current token
(reversed). -/
def pySplitAux : List Char → List Char → List (List Char)
  | [], acc => if acc.isEmpty then [] else [acc.reverse]
  | c :: rest, acc =>
    if isPySpace c then
      if acc.isEmpty then pySplitAux rest [] else acc.reverse :: pySplitAux rest []
    else pySplitAux rest (c :: acc)

/-- Python `value.split()`: split on runs of whitespace, discarding empty
tokens. -/
def pySplit (s : List Char) : List (List Char) :=
  pySplitAux s []

/-- Python `x.replace('.', '')`: removes every dot character. -/
def removeDots (s : List Char) : List Char :=
  s.filter (fun c => c ≠ '.')

/-- Python `s.isdigit()` on ASCII text: non-empty and every character a
decimal digit. -/
def pyIsdigit (s : List Char) : Bool :=
  !s.isEmpty && s.all Char.isDigit

/-- Digit string to natural number, `digitsToNat "007" = 7`. -/
def digitsToNat (s : List Char) : Nat :=
  s.foldl (fun n c => 10 * n + (c.toNat - '0'.toNat)) 0

/-- Python `float(x)` modelled on strings of decimal digits and at least one
digit, with any number of dots (the only strings that pass the filter
`x.replace('.', '').isdigit()` in the source).  With zero or one dot the parse
succeeds (`"1."` and `".5"` included, as in CPython); with two or more dots
CPython raises `ValueError`, modelled as `none`. -/
def pyFloatOfToken (s : List Char) : Option ℚ :=
  if (s.filter (fun c => c = '.')).length ≥ 2 then none
  else
    let intPart := s.takeWhile (fun c => c ≠ '.')
    let fracPart := (s.dropWhile (fun c => c ≠ '.')).drop 1
    if (intPart ++ fracPart).all Char.isDigit && !(intPart ++ fracPart).isEmpty then
      if fracPart.isEmpty then some (digitsToNat intPart : ℚ)
      else some ((digitsToNat intPart : ℚ) + (digitsToNat fracPart : ℚ) / (10 : ℚ) ^ fracPart.length)
    else none

/-- The `Param` object of `src/main.py` (one Reading).  `update_time` is not
modelled (wall-clock time). -/
structure Param where
  value_raw : Option (List Char)
  value_parsed : Option ℚ
  unit : List Char
  is_health_ok : Bool
  deriving DecidableEq, Repr

/-- `Param.__init__(unit)`: uninitialized reading. -/
def Param.pyInit (unit : List Char) : Param :=
  { value_raw := none, value_parsed := none, unit := unit, is_health_ok := false }

/-- `Param.set_float_check_value(value)` from `src/main.py` lines 154-162:
sets `value_raw`, then evaluates
`next(float(x) for x in value.split() if x.replace('.', '').isdigit())`.
If no token passes the filter, the `StopIteration` is caught and
`is_health_ok` is set to `False` (note: `value_parsed` is NOT cleared).
If the first passing token has two or more dots, `float` raises `ValueError`,
which the method does not catch: modelled as `.error` carrying the object
state at that moment. -/
def Param.set_float_check_value (p : Param) (value : List Char) : Except Param Param :=
  let p1 : Param := { p with value_raw := some value }
  match (pySplit value).find? (fun x => pyIsdigit (removeDots x)) with
  | none => .ok { p1 with is_health_ok := false }
  | some x =>
    match pyFloatOfToken x with
    | some q => .ok { p1 with value_parsed := some q, is_health_ok := true }
    | none => .error p1

/-- `Param.__str__`, parametrised by a rendering `fr` of Python floats. -/
def Param.str (fr : ℚ → List Char) (p : Param) : List Char :=
  match p.value_raw with
  | none => ("Uninitialized - No Value fetched".data)
  | some raw =>
    if !p.is_health_ok then
      ("Invalid Data - Raw value: \"".data) ++ raw ++ ("\"".data)
    else
      (match p.value_parsed with
       | none => ("None".data)
       | some q => fr q) ++ ' ' :: p.unit

instance {ε α : Type} [DecidableEq ε] [DecidableEq α] : DecidableEq (Except ε α)
  | .ok a, .ok b => decidable_of_iff (a = b) (by simp)
  | .error a, .error b => decidable_of_iff (a = b) (by simp)
  | .ok _, .error _ => isFalse (fun h => Except.noConfusion h)
  | .error _, .ok _ => isFalse (fun h => Except.noConfusion h)

/-- The spec's notion of a valid numeric token: after removing at most one
dot, all characters are decimal digits and the remainder is non-empty.
(Stated from the spec's words, for comparison with the source's filter.) -/
def spec_validToken (tok : List Char) : Bool :=
  decide ((tok.filter (fun c => c = '.')).length ≤ 1) && pyIsdigit (removeDots tok)

/-- The spec's top-level predicate on raw texts: some whitespace-delimited
token is a valid numeric token. -/
def spec_hasValidToken (t : List Char) : Bool :=
  (pySplit t).any spec_validToken

/-- The separator marker of the bounded log: 36 dashes (`line` in
`append_to_file`). -/
def sepLine : List Char :=
  ("------------------------------------".data)

/-- Byte size of a text file holding these characters in UTF-8 (the program
opens every file with `encoding='utf-8'`; `Path.stat().st_size` counts
bytes). -/
def utf8Size (s : List Char) : Nat :=
  (s.map Char.utf8Size).sum

/-- Does `pat` occur in `hay` starting at character position `i`? -/
def occursAt (hay pat : List Char) (i : Nat) : Bool :=
  pat.isPrefixOf (hay.drop i)

/-- Scan positions `i, i+1, ...` (up to the given fuel) for an occurrence of
`pat`. -/
def pyFindFrom (hay pat : List Char) : Nat → Nat → Option Nat
  | _, 0 => none
  | i, fuel + 1 => if occursAt hay pat i then some i else pyFindFrom hay pat (i + 1) fuel

/-- Python `hay.find(pat, start)`: the smallest index `≥ start` at which
`pat` occurs, `none` for Python's `-1`. -/
def pyFind (hay pat : List Char) (start : Nat) : Option Nat :=
  pyFindFrom hay pat start (hay.length + 1 - start)

/-- `append_to_file` from `src/main.py` lines 41-63, as a function from the
current file state (`none` when the file does not exist) to the resulting
file content.  If the file exists and its byte size strictly exceeds
`max_size`, and two separator markers are found (the second search starting
right after the first marker), the characters from the first marker
(inclusive) up to the second (exclusive) are removed; then the new text plus
a newline is appended. -/
def append_to_file (max_size : Nat) (file : Option (List Char)) (text : List Char) : List Char :=
  let content := file.getD []
  let trimmed :=
    if file.isSome && decide (utf8Size content > max_size) then
      match pyFind content sepLine 0 with
      | none => content
      | some first =>
        match pyFind content sepLine (first + sepLine.length) with
        | none => content
        | some second => content.take first ++ content.drop second
    else content
  trimmed ++ text ++ ['\n']

/-- The module-level default `Max_SIZE = 50*1024` (overwritten from the
configuration in `main`). -/
def Max_SIZE : Nat := 50 * 1024

/-- The `[application]` section of the configuration, after toml parsing
(`float(...)` and `int(...)` already applied); file I/O and toml syntax are
out of scope. -/
structure ApplicationConfig where
  loop_time_sec : ℚ
  log_size_kb : ℤ

/-- The clamping performed by `ConfigData.read` (`src/main.py` lines
125-128): `loop_time_sec = max(float(...), 30)` and
`log_size_kb = max(int(...), 50) * 1024`. -/
def ConfigData.read (app : ApplicationConfig) : ℚ × ℤ :=
  (max app.loop_time_sec 30, max app.log_size_kb 50 * 1024)

/-- The spec's words for `floor-clamped to a minimum of m`, on rationals. -/
def spec_floorClampQ (x m : ℚ) : ℚ :=
  if x < m then m else x

/-- The spec's words for `floor-clamped to a minimum of m`, on integers. -/
def spec_floorClampZ (x m : ℤ) : ℤ :=
  if x < m then m else x

/-- Concrete oversized log content for the C4 witness: two separator-headed
blocks. -/
def c4File : List Char :=
  sepLine ++ 'a' :: sepLine ++ ['b']

/-- The number of sleep slices of the main loop (`src/main.py` lines
457-462): `sleep_time = max(0, loop_time_sec - elapsed)` and the loop runs
`int(sleep_time / 0.5)` iterations of `time.sleep(0.5)` (Python `int()`
truncates toward zero, which is `floor` on the non-negative argument). -/
def sleep_slices (loop_time_sec elapsed : ℚ) : Nat :=
  (⌊max 0 (loop_time_sec - elapsed) / (1 / 2 : ℚ)⌋).toNat

/-- The sleep loop body: for each remaining slice, sleep half a second, then
check the exit flag and break if set.  `g k` is the flag value read by the
check performed after slice number `slept + k`.  Returns the total number of
slices slept and whether the flag was observed. -/
def sleep_loop (g : Nat → Bool) (slept : Nat) : Nat → Nat × Bool
  | 0 => (slept, false)
  | n + 1 => if g slept then (slept + 1, true) else sleep_loop g (slept + 1) n

/-- Total time slept (in seconds) by one pass of the sleep loop when the
exit flag is never set. -/
def total_sleep_no_cancel (loop_time_sec elapsed : ℚ) : ℚ :=
  ((sleep_loop (fun _ => false) 0 (sleep_slices loop_time_sec elapsed)).1 : ℚ) * (1 / 2)

/-- The `while not exit_flag.is_set()` loop of `main` (lines 438-465):
each iteration first checks the flag (one checkpoint), then runs one poll
cycle over all stations, then sleeps in half-second slices, checking the
flag after each slice; every flag read consumes one checkpoint index of
`flag`.  `fuel` bounds the number of iterations; the return value counts
poll cycles started. -/
def scheduler (flag : Nat → Bool) (slices : Nat) : Nat → Nat → Nat
  | 0, _ => 0
  | fuel + 1, t =>
    if flag t then 0
    else
      1 + scheduler flag slices fuel (t + 1 + (sleep_loop (fun k => flag (t + 1 + k)) 0 slices).1)

/-- Helper for `pySplitSep`. -/
def pySplitSepAux (sep : Char) : List Char → List Char → List (List Char)
  | [], acc => [acc.reverse]
  | c :: rest, acc =>
    if c = sep then acc.reverse :: pySplitSepAux sep rest []
    else pySplitSepAux sep rest (c :: acc)

/-- Python `s.split(sep)` with an explicit separator: keeps empty pieces and
always returns at least one piece. -/
def pySplitSep (sep : Char) (s : List Char) : List (List Char) :=
  pySplitSepAux sep s []

/-- Python `s.upper()` on ASCII text. -/
def pyUpper (s : List Char) : List Char :=
  s.map Char.toUpper

/-- Python `s.lstrip()`. -/
def pyLstrip (s : List Char) : List Char :=
  s.dropWhile (fun c => isPySpace c)

/-- Python `s.isprintable()` on ASCII text: no control characters (the empty
string is printable). -/
def pyIsPrintable (s : List Char) : Bool :=
  s.all (fun c => decide (32 ≤ c.toNat) && decide (c.toNat ≤ 126))

/-- Severity of a line sent to the logger/log file. -/
inductive LogLevel where
  | info
  | error
  deriving DecidableEq, Repr

/-- One line emitted to the activity log (timestamp prefix not modelled). -/
abbrev LogLine := LogLevel × List Char

/-- A full overwrite of a per-station output file: file name and content. -/
abbrev FileWrite := List Char × List Char

/-- The Selenium driver as seen by one station's `fetch_data`: the tab
click, the title lookup, and the per-parameter text fetch (1-based index).
`Except.error` models a raised `WebDriverException`/timeout, carrying its
message. -/
structure Oracle where
  tabClick : Except (List Char) Unit
  titleText : Except (List Char) (List Char)
  paramText : Nat → Except (List Char) (List Char)

/-- The error log line of every station's `except` clause:
`f"Error fetching data for {self.name}: {str(e)}"`. -/
def errLine (name msg : List Char) : List Char :=
  ("Error fetching data for ".data) ++ name ++ (": ".data) ++ msg

/-- The message of the `ValueError` escaping `set_float_check_value`. -/
def valueErrorMsg : List Char :=
  ("could not convert string to float".data)

/-- Python `", ".join(...)`. -/
def pyJoin (sep : List Char) : List (List Char) → List Char
  | [] => []
  | [x] => x
  | x :: y :: rest => x ++ sep ++ pyJoin sep (y :: rest)

/-- The `for i, (param_name, param) in enumerate(self.params.items(), 1)`
loop shared by all three station classes: fetch the i-th element text and
ingest it.  Returns the params list (mutated up to the point of failure,
untouched after it) and the message of the first raised exception, if any
(either a fetch failure or the `ValueError` out of
`set_float_check_value`). -/
def ingestParams (o : Oracle) : Nat → List (List Char × Param) →
    List (List Char × Param) × Option (List Char)
  | _, [] => ([], none)
  | i, (k, p) :: rest =>
    match o.paramText i with
    | .error e => ((k, p) :: rest, some e)
    | .ok v =>
      match p.set_float_check_value v with
      | .error p1 => ((k, p1) :: rest, some valueErrorMsg)
      | .ok p1 =>
        let r := ingestParams o (i + 1) rest
        ((k, p1) :: r.1, r.2)

/-- The `Caaqms` station (`src/main.py` lines 173-219).  The CSS selectors
(`selector`, `selector_idx`) are not modelled: query construction is folded
into the `Oracle`. -/
structure Caaqms where
  name : List Char
  unit : Option (List Char)
  params : List (List Char × Param)
  deriving DecidableEq, Repr

/-- `Caaqms.__init__`: fixed parameter order and units. -/
def Caaqms.init (name : List Char) : Caaqms :=
  { name := name, unit := none,
    params :=
      [ (("co".data), Param.pyInit ("mg/m³".data)),
        (("co2".data), Param.pyInit ("ppm".data)),
        (("nox".data), Param.pyInit ("μg/m³".data)),
        (("pm10".data), Param.pyInit ("μg/m³".data)),
        (("pm2_5".data), Param.pyInit ("μg/m³".data)),
        (("so2".data), Param.pyInit ("μg/m³".data)) ] }

/-- `Caaqms.__str__`. -/
def Caaqms.str (fr : ℚ → List Char) (st : Caaqms) : List Char :=
  st.name ++ (" DATA:- ".data)
    ++ pyJoin (", ".data)
        (st.params.map (fun kv => pyUpper kv.1 ++ (": ".data) ++ Param.str fr kv.2))

/-- The one-time title/unit discovery of `Caaqms.fetch_data` (lines
197-205), applied to the fetched title text `pre`: take the last
`'_'`-separated piece, and if its upper-casing is printable, append its
upper-cased, left-stripped form to the name and recompute the file name. -/
def Caaqms.discover (st : Caaqms) (file_name pre : List Char) : Caaqms × List Char :=
  let lastTok := (pySplitSep '_' pre).getLastD []
  if pyIsPrintable (pyUpper lastTok) then
    let x := pyLstrip (pyUpper lastTok)
    ({ st with unit := some x, name := st.name ++ x }, st.name ++ x ++ (".txt".data))
  else (st, file_name)

/-- The discovery step guarded by `if self.unit is None`; fetching the title
text can fail. -/
def Caaqms.discoverStep (st : Caaqms) (file_name : List Char) (o : Oracle) :
    Except (List Char) (Caaqms × List Char) :=
  match st.unit with
  | some _ => .ok (st, file_name)
  | none => Except.map (fun pre => Caaqms.discover st file_name pre) o.titleText

/-- `Caaqms.fetch_data` (lines 192-219): click the tab, run the discovery
step, ingest every parameter in order, then log one info line and overwrite
the output file with `str(self)`; any raised error is caught, one error
line naming the station is logged, and no file is written. -/
def Caaqms.fetch_data (fr : ℚ → List Char) (st : Caaqms) (file_name : List Char) (o : Oracle) :
    Caaqms × List LogLine × Option FileWrite :=
  match o.tabClick with
  | .error e => (st, [(LogLevel.error, errLine st.name e)], none)
  | .ok _ =>
    match Caaqms.discoverStep st file_name o with
    | .error e => (st, [(LogLevel.error, errLine st.name e)], none)
    | .ok (st1, fn1) =>
      let r := ingestParams o 1 st1.params
      let st2 : Caaqms := { st1 with params := r.1 }
      match r.2 with
      | some e => (st2, [(LogLevel.error, errLine st2.name e)], none)
      | none =>
        let line := Caaqms.str fr st2
        (st2, [(LogLevel.info, line)], some (fn1, line))

/-- The `Cems` station (lines 222-264); selectors abstracted as for
`Caaqms`. -/
structure Cems where
  name : List Char
  unit : Option Nat
  params : List (List Char × Param)
  deriving DecidableEq, Repr

/-- `Cems.__init__`. -/
def Cems.init (name : List Char) : Cems :=
  { name := name, unit := none,
    params :=
      [ (("nox".data), Param.pyInit ("mg/nm³".data)),
        (("pm".data), Param.pyInit ("mg/nm³".data)),
        (("so2".data), Param.pyInit ("mg/nm³".data)) ] }

/-- `Cems.__str__`. -/
def Cems.str (fr : ℚ → List Char) (st : Cems) : List Char :=
  st.name ++ (" DATA:- ".data)
    ++ pyJoin (", ".data)
        (st.params.map (fun kv => pyUpper kv.1 ++ (": ".data) ++ Param.str fr kv.2))

/-- The one-time unit discovery of `Cems.fetch_data` (lines 243-251): the
last `'_'`-separated piece of the title, if all digits, becomes the integer
unit and its decimal rendering is appended to the name. -/
def Cems.discover (st : Cems) (file_name pre : List Char) : Cems × List Char :=
  let lastTok := (pySplitSep '_' pre).getLastD []
  if pyIsdigit lastTok then
    let x := digitsToNat lastTok
    ({ st with unit := some x, name := st.name ++ (Nat.repr x).data },
      st.name ++ (Nat.repr x).data ++ (".txt".data))
  else (st, file_name)

/-- The `Cems` discovery step guarded by `if self.unit is None`. -/
def Cems.discoverStep (st : Cems) (file_name : List Char) (o : Oracle) :
    Except (List Char) (Cems × List Char) :=
  match st.unit with
  | some _ => .ok (st, file_name)
  | none => Except.map (fun pre => Cems.discover st file_name pre) o.titleText

/-- `Cems.fetch_data` (lines 238-264), same shape as `Caaqms.fetch_data`. -/
def Cems.fetch_data (fr : ℚ → List Char) (st : Cems) (file_name : List Char) (o : Oracle) :
    Cems × List LogLine × Option FileWrite :=
  match o.tabClick with
  | .error e => (st, [(LogLevel.error, errLine st.name e)], none)
  | .ok _ =>
    match Cems.discoverStep st file_name o with
    | .error e => (st, [(LogLevel.error, errLine st.name e)], none)
    | .ok (st1, fn1) =>
      let r := ingestParams o 1 st1.params
      let st2 : Cems := { st1 with params := r.1 }
      match r.2 with
      | some e => (st2, [(LogLevel.error, errLine st2.name e)], none)
      | none =>
        let line := Cems.str fr st2
        (st2, [(LogLevel.info, line)], some (fn1, line))

/-- The `Eqms` station (lines 267-299); its constructor selector argument is
abstracted into the `Oracle`. -/
structure Eqms where
  name : List Char
  params : List (List Char × Param)
  deriving DecidableEq, Repr

/-- `Eqms.__init__`. -/
def Eqms.init (name : List Char) : Eqms :=
  { name := name,
    params :=
      [ (("bod_toc".data), Param.pyInit ("mg/L".data)),
        (("cod_toc".data), Param.pyInit ("mg/L".data)),
        (("ph".data), Param.pyInit ("pH".data)),
        (("toc".data), Param.pyInit ("mg/L".data)),
        (("tss".data), Param.pyInit ("mg/L".data)),
        (("temperature".data), Param.pyInit ("°C".data)) ] }

/-- `Eqms.__str__` — note the source writes `" Data:- "`, not
`" DATA:- "`. -/
def Eqms.str (fr : ℚ → List Char) (st : Eqms) : List Char :=
  st.name ++ (" Data:- ".data)
    ++ pyJoin (", ".data)
        (st.params.map (fun kv => pyUpper kv.1 ++ (": ".data) ++ Param.str fr kv.2))

/-- `Eqms.fetch_data` (lines 283-299): no discovery step. -/
def Eqms.fetch_data (fr : ℚ → List Char) (st : Eqms) (file_name : List Char) (o : Oracle) :
    Eqms × List LogLine × Option FileWrite :=
  match o.tabClick with
  | .error e => (st, [(LogLevel.error, errLine st.name e)], none)
  | .ok _ =>
    let r := ingestParams o 1 st.params
    let st2 : Eqms := { st with params := r.1 }
    match r.2 with
    | some e => (st2, [(LogLevel.error, errLine st2.name e)], none)
    | none =>
      let line := Eqms.str fr st2
      (st2, [(LogLevel.info, line)], some (file_name, line))

/-- The per-station outcome of one cycle: log lines plus optional file
write. -/
abbrev StationOutcome := List LogLine × Option FileWrite

/-- The `for caaqms in caaqms_sites` loop of `main` (lines 442-443): each
station is polled with the file name `f"{caaqms.name}.txt"`; `os j` is the
driver's behaviour for the `(i0 + j)`-th station of the cycle. -/
def pollCaaqmsList (fr : ℚ → List Char) (os : Nat → Oracle) :
    Nat → List Caaqms → List Caaqms × List StationOutcome
  | _, [] => ([], [])
  | i, st :: rest =>
    let r := Caaqms.fetch_data fr st (st.name ++ (".txt".data)) (os i)
    let rr := pollCaaqmsList fr os (i + 1) rest
    (r.1 :: rr.1, r.2 :: rr.2)

/-- The `for cems in cems_units` loop of `main` (lines 445-446). -/
def pollCemsList (fr : ℚ → List Char) (os : Nat → Oracle) :
    Nat → List Cems → List Cems × List StationOutcome
  | _, [] => ([], [])
  | i, st :: rest =>
    let r := Cems.fetch_data fr st (st.name ++ (".txt".data)) (os i)
    let rr := pollCemsList fr os (i + 1) rest
    (r.1 :: rr.1, r.2 :: rr.2)

/-- One full poll cycle of `main` (lines 441-448): all CAAQMS stations, all
CEMS units, then the EQMS station with the fixed file name `"ETP.txt"`.
Station `j` of the cycle interacts with the driver through `os j`.  Returns
the updated stations and the per-station outcomes in poll order. -/
def runCycle (fr : ℚ → List Char) (cs : List Caaqms) (ms : List Cems) (e : Eqms)
    (os : Nat → Oracle) :
    (List Caaqms × List Cems × Eqms) × List StationOutcome :=
  let a := pollCaaqmsList fr os 0 cs
  let b := pollCemsList fr os cs.length ms
  let c := Eqms.fetch_data fr e ("ETP.txt".data) (os (cs.length + ms.length))
  ((a.1, b.1, c.1), a.2 ++ b.2 ++ [c.2])

/-- Trivial float rendering used in concrete witnesses (the rendering is a
parameter everywhere). -/
def frW : ℚ → List Char := fun _ => []

/-- CPython renders `float("7")` as `"7.0"`; rendering used by the C7
counterexample run. -/
def frC7 : ℚ → List Char := fun _ => ("7.0".data)

/-- An oracle whose tab click raises. -/
def oTabFail : Oracle :=
  { tabClick := .error ("boom".data), titleText := .ok [], paramText := fun _ => .ok [] }

/-- An oracle for a fully successful poll: every element reads `"7"`. -/
def oAllSeven : Oracle :=
  { tabClick := .ok (), titleText := .ok [], paramText := fun _ => .ok ("7".data) }

/-- The line actually written by a successful EQMS poll reading `"7"`
everywhere. -/
def eqmsLineC7 : List Char :=
  ("ETP Data:- BOD_TOC: 7.0 mg/L, COD_TOC: 7.0 mg/L, PH: 7.0 pH, TOC: 7.0 mg/L, TSS: 7.0 mg/L, TEMPERATURE: 7.0 °C".data)

/-- The parameter renderings of that poll, for assembling the spec's claimed
line shape. -/
def c7_parts : List (List Char) :=
  [ ("BOD_TOC: 7.0 mg/L".data), ("COD_TOC: 7.0 mg/L".data), ("PH: 7.0 pH".data),
    ("TOC: 7.0 mg/L".data), ("TSS: 7.0 mg/L".data), ("TEMPERATURE: 7.0 °C".data) ]

/-- The output line format claimed by the spec for every station:
`"<station name> DATA:- PARAM1: <...>, PARAM2: <...>, ..."`. -/
def c7_specLine (name : List Char) (parts : List (List Char)) : List Char :=
  name ++ (" DATA:- ".data) ++ pyJoin (", ".data) parts

/-- C1: the spec predicate holds of `"1.2.3 45"` (the token `"45"` is valid,
so the spec demands `healthy = true` with `parsedValue = 45.0`), but
`set_float_check_value` raises an uncaught `ValueError` there, producing no
Reading at all: the generator's filter strips ALL dots, so `"1.2.3"` passes
the filter and is handed to `float`, which raises. -/
theorem claim_C1 :
    spec_hasValidToken ("1.2.3 45".data) = true
      ∧ Param.set_float_check_value (Param.pyInit ("u".data)) ("1.2.3 45".data)
          = .error { value_raw := some ("1.2.3 45".data), value_parsed := none,
                     unit := ("u".data), is_health_ok := false } := by
  decide

/-- C2: `set_float_check_value` is not total: on the input `"1.2.3"` the
token passes the filter `x.replace('.', '').isdigit()` but `float("1.2.3")`
raises `ValueError`, which only-`StopIteration` handling lets escape. -/
theorem claim_C2 :
    Param.set_float_check_value (Param.pyInit ("u2".data)) ("1.2.3".data)
      = .error { value_raw := some ("1.2.3".data), value_parsed := none,
                 unit := ("u2".data), is_health_ok := false } := by
  decide

/-- C3 counterexample: after a healthy reading of `"5"`, ingesting the
token-free text `"no data"` returns a Reading with `healthy = false` but
`value_parsed` still `some 5`: the `StopIteration` branch does not clear
`value_parsed`, so the claim that every ingest fully overwrites the Reading
is false. -/
theorem claim_C3_counterexample :
    Param.set_float_check_value (Param.pyInit ("mg".data)) ("5".data)
        = .ok { value_raw := some ("5".data), value_parsed := some 5,
                unit := ("mg".data), is_health_ok := true }
      ∧ Param.set_float_check_value
          { value_raw := some ("5".data), value_parsed := some 5,
            unit := ("mg".data), is_health_ok := true } ("no data".data)
        = .ok { value_raw := some ("no data".data), value_parsed := some 5,
                unit := ("mg".data), is_health_ok := false } := by
  decide

/-- C3 amended: when no whitespace-delimited token passes the digit filter,
`set_float_check_value` returns normally with `healthy = false` and
`rawText` overwritten, but `value_parsed` RETAINS its previous value (the
no-token path never touches it); the Reading is merged, not fully
overwritten. -/
theorem claim_C3_amended (p : Param) (t : List Char)
    (h : ∀ x ∈ pySplit t, pyIsdigit (removeDots x) = false) :
    Param.set_float_check_value p t
      = .ok { p with value_raw := some t, is_health_ok := false } := by
  have hf : (pySplit t).find? (fun x => pyIsdigit (removeDots x)) = none := by
    rw [List.find?_eq_none]
    intro x hx
    simp [h x hx]
  simp [Param.set_float_check_value, hf]

/-- C3 amended, witness: a previously healthy Reading keeps `value_parsed =
some 5` after ingesting `"garbage"`. -/
theorem claim_C3_amended_witness :
    Param.set_float_check_value
        { value_raw := some ("5".data), value_parsed := some 5,
          unit := ("mg".data), is_health_ok := true } ("garbage".data)
      = .ok { value_raw := some ("garbage".data), value_parsed := some 5,
              unit := ("mg".data), is_health_ok := false } :=
  claim_C3_amended _ _ (by decide)

/-- C10: when the only whitespace-delimited token of the input is the bare
string `"."`, the reading is unhealthy: `".".replace('.', '')` is the empty
string, and Python's `"".isdigit()` is `False`, so the token never passes the
filter. -/
theorem claim_C10 (p : Param) (t : List Char) (h : pySplit t = [['.']]) :
    Param.set_float_check_value p t
      = .ok { p with value_raw := some t, is_health_ok := false } := by
  unfold Param.set_float_check_value
  rw [h]
  rfl

/-- C10 witness: ingesting the literal text `"."` yields an unhealthy
Reading. -/
theorem claim_C10_witness :
    Param.set_float_check_value (Param.pyInit ("x".data)) (".".data)
      = .ok { value_raw := some (".".data), value_parsed := none,
              unit := ("x".data), is_health_ok := false } :=
  claim_C10 _ _ (by decide)

/-- Soundness and minimality of the position scan behind `pyFind`. -/
theorem pyFindFrom_spec (hay pat : List Char) :
    ∀ fuel i r, pyFindFrom hay pat i fuel = some r →
      i ≤ r ∧ occursAt hay pat r = true ∧ ∀ k, i ≤ k → k < r → occursAt hay pat k = false := by
  intro fuel
  induction fuel with
  | zero => intro i r h; simp [pyFindFrom] at h
  | succ m ih =>
    intro i r h
    by_cases hc : occursAt hay pat i = true
    · simp [pyFindFrom, hc] at h
      subst h
      exact ⟨le_refl _, hc, fun k hk1 hk2 => absurd hk1 (by omega)⟩
    · simp [pyFindFrom, hc] at h
      obtain ⟨h1, h2, h3⟩ := ih (i + 1) r h
      refine ⟨by omega, h2, fun k hk1 hk2 => ?_⟩
      by_cases hk : k = i
      · subst hk; simpa using hc
      · exact h3 k (by omega) hk2

/-- C4: for an existing file whose byte size strictly exceeds `max_size`,
one `append_to_file` call removes exactly the character range from the first
separator occurrence (inclusive) up to the second occurrence (exclusive,
searched from just past the first) and appends the new line plus a newline;
with fewer than two separators the content is left untrimmed and the line is
still appended.  The last conjunct checks that `pyFind` really returns the
FIRST occurrence at or after `start`. -/
theorem claim_C4 (max_size : Nat) (c text : List Char) (hsz : utf8Size c > max_size) :
    (∀ i j, pyFind c sepLine 0 = some i → pyFind c sepLine (i + sepLine.length) = some j →
        append_to_file max_size (some c) text = (c.take i ++ c.drop j) ++ text ++ ['\n'])
      ∧ (∀ i, pyFind c sepLine 0 = some i → pyFind c sepLine (i + sepLine.length) = none →
          append_to_file max_size (some c) text = c ++ text ++ ['\n'])
      ∧ (pyFind c sepLine 0 = none →
          append_to_file max_size (some c) text = c ++ text ++ ['\n'])
      ∧ (∀ pat start i, pyFind c pat start = some i →
          start ≤ i ∧ occursAt c pat i = true
            ∧ ∀ k, start ≤ k → k < i → occursAt c pat k = false) := by
  refine ⟨?_, ?_, ?_, ?_⟩
  · intro i j h1 h2
    simp [append_to_file, hsz, h1, h2]
  · intro i h1 h2
    simp [append_to_file, hsz, h1, h2]
  · intro h1
    simp [append_to_file, hsz, h1]
  · intro pat start i h
    exact pyFindFrom_spec c pat _ start i h

/-- C4 witness: a 74-byte file over a 1-byte bound, holding two separator
markers at positions 0 and 37; the block from 0 up to 37 is dropped and the
new line lands at the end. -/
theorem claim_C4_witness :
    utf8Size c4File > 1
      ∧ append_to_file 1 (some c4File) ("x".data)
          = (c4File.take 0 ++ c4File.drop 37) ++ ("x".data) ++ ['\n'] :=
  ⟨by decide, (claim_C4 1 c4File ("x".data) (by decide)).1 0 37 (by decide) (by decide)⟩

/-- C5: when the file's current byte size does not exceed `max_size`, no
trimming occurs: the result is exactly the previous content with the new
line plus a newline appended. -/
theorem claim_C5 (max_size : Nat) (c text : List Char) (h : utf8Size c ≤ max_size) :
    append_to_file max_size (some c) text = c ++ text ++ ['\n'] := by
  have hn : ¬ utf8Size c > max_size := not_lt.mpr h
  simp [append_to_file, hn]

/-- C5 witness: a small file is only appended to. -/
theorem claim_C5_witness :
    append_to_file 10 (some ("ab".data)) ("c".data) = ("ab".data) ++ ("c".data) ++ ['\n'] :=
  claim_C5 10 ("ab".data) ("c".data) (by decide)

/-- C9: the effective loop interval is the configured `loop_time_sec`
floor-clamped to a minimum of 30, and the effective log bound is the
configured `log_size_kb` floor-clamped to a minimum of 50 and converted to
bytes by multiplying by 1024; in particular the effective values are at
least 30 seconds and 50*1024 bytes. -/
theorem claim_C9 (app : ApplicationConfig) :
    ConfigData.read app
        = (spec_floorClampQ app.loop_time_sec 30, spec_floorClampZ app.log_size_kb 50 * 1024)
      ∧ 30 ≤ (ConfigData.read app).1 ∧ 50 * 1024 ≤ (ConfigData.read app).2 := by
  refine ⟨?_, le_max_right _ _, ?_⟩
  · have e1 : max app.loop_time_sec 30 = spec_floorClampQ app.loop_time_sec 30 := by
      unfold spec_floorClampQ
      by_cases h1 : app.loop_time_sec < 30
      · rw [if_pos h1, max_eq_right h1.le]
      · rw [if_neg h1, max_eq_left (not_lt.mp h1)]
    have e2 : max app.log_size_kb 50 = spec_floorClampZ app.log_size_kb 50 := by
      unfold spec_floorClampZ
      by_cases h2 : app.log_size_kb < 50
      · rw [if_pos h2, max_eq_right h2.le]
      · rw [if_neg h2, max_eq_left (not_lt.mp h2)]
    unfold ConfigData.read
    rw [e1, e2]
  · exact mul_le_mul_of_nonneg_right (le_max_right _ _) (by norm_num)

/-- If the exit flag is never set, the sleep loop sleeps every slice. -/
theorem sleep_loop_all_unset (g : Nat → Bool) :
    ∀ n slept, (∀ k, k < n → g (slept + k) = false) → sleep_loop g slept n = (slept + n, false) := by
  intro n
  induction n with
  | zero => intro slept _; simp [sleep_loop]
  | succ m ih =>
    intro slept h
    have h0 : g slept = false := by simpa using h 0 (Nat.succ_pos m)
    have hrec := ih (slept + 1) (fun k hk => by
      have := h (k + 1) (Nat.succ_lt_succ hk)
      have he : slept + 1 + k = slept + (k + 1) := by omega
      rw [he]; exact this)
    rw [show sleep_loop g slept (m + 1)
          = if g slept then (slept + 1, true) else sleep_loop g (slept + 1) m from rfl,
      if_neg (by simp [h0]), hrec]
    have he : slept + 1 + m = slept + (m + 1) := by omega
    rw [he]

/-- If the flag first reads true at the check after slice `j`, the loop
sleeps exactly `j + 1` slices and stops. -/
theorem sleep_loop_first_set (g : Nat → Bool) :
    ∀ j n slept, j < n → g (slept + j) = true → (∀ k, k < j → g (slept + k) = false) →
      sleep_loop g slept n = (slept + j + 1, true) := by
  intro j
  induction j with
  | zero =>
    intro n slept hj hg _
    cases n with
    | zero => omega
    | succ m =>
      have h0 : g slept = true := by simpa using hg
      simp [sleep_loop, h0]
  | succ i ih =>
    intro n slept hj hg hprev
    cases n with
    | zero => omega
    | succ m =>
      have h0 : g slept = false := by simpa using hprev 0 (Nat.succ_pos i)
      have hg' : g (slept + 1 + i) = true := by
        have he : slept + 1 + i = slept + (i + 1) := by omega
        rw [he]; exact hg
      have hprev' : ∀ k, k < i → g (slept + 1 + k) = false := by
        intro k hk
        have he : slept + 1 + k = slept + (k + 1) := by omega
        rw [he]; exact hprev (k + 1) (by omega)
      have hrec := ih m (slept + 1) (by omega) hg' hprev'
      rw [show sleep_loop g slept (m + 1)
            = if g slept then (slept + 1, true) else sleep_loop g (slept + 1) m from rfl,
        if_neg (by simp [h0]), hrec]
      have he : slept + 1 + i + 1 = slept + (i + 1) + 1 := by omega
      rw [he]

/-- C8 counterexample: with interval 30 and elapsed 29.3, the remaining
budget is 0.7 but the loop runs `int(0.7/0.5) = 1` slice and sleeps only
0.5: the scheduler does not sleep for `max(0, intervalSeconds - elapsed)`
when that is not a whole multiple of 0.5. -/
theorem claim_C8_counterexample :
    total_sleep_no_cancel 30 (293 / 10) ≠ max 0 (30 - 293 / 10) := by
  have hmax : max (0 : ℚ) (30 - 293 / 10) = 7 / 10 := by
    rw [max_eq_right (by norm_num : (0 : ℚ) ≤ 30 - 293 / 10)]
    norm_num
  have hfl : (⌊(7 / 10 : ℚ) / (1 / 2 : ℚ)⌋) = 1 := by
    rw [Int.floor_eq_iff]
    norm_num
  have hs : sleep_slices 30 (293 / 10) = 1 := by
    unfold sleep_slices
    rw [hmax, hfl]
    rfl
  unfold total_sleep_no_cancel
  rw [hs, hmax]
  norm_num [sleep_loop]

/-- C8 amended: after each poll cycle the scheduler sleeps
`max(0, intervalSeconds - elapsed)` ROUNDED DOWN to a whole number of
0.5-second slices (so the total sleep is at most the budget and within 0.5
of it), checking the cancellation flag after each slice; a flag set during
slice `j` is observed at that slice's check (within 0.5 time units), and
once the flag is set no new poll cycle is started. -/
theorem claim_C8_amended :
    (∀ loop_time_sec elapsed : ℚ,
        (sleep_slices loop_time_sec elapsed : ℚ) * (1 / 2) ≤ max 0 (loop_time_sec - elapsed)
          ∧ max 0 (loop_time_sec - elapsed) - (sleep_slices loop_time_sec elapsed : ℚ) * (1 / 2)
              < 1 / 2)
      ∧ (∀ g : Nat → Bool, ∀ n, (∀ k, k < n → g k = false) → sleep_loop g 0 n = (n, false))
      ∧ (∀ g : Nat → Bool, ∀ n j, j < n → g j = true → (∀ k, k < j → g k = false) →
          sleep_loop g 0 n = (j + 1, true))
      ∧ (∀ flag : Nat → Bool, ∀ slices fuel τ t,
          (∀ i j, i ≤ j → flag i = true → flag j = true) → flag τ = true → τ ≤ t →
            scheduler flag slices fuel t = 0) := by
  refine ⟨?_, ?_, ?_, ?_⟩
  · intro loop_time_sec elapsed
    set S : ℚ := max 0 (loop_time_sec - elapsed) with hSdef
    have hS : 0 ≤ S := le_max_left _ _
    have hx : S / (1 / 2 : ℚ) = 2 * S := by ring
    have hfl : ((⌊S / (1 / 2 : ℚ)⌋ : ℤ) : ℚ) ≤ S / (1 / 2 : ℚ) := Int.floor_le _
    have hlt : S / (1 / 2 : ℚ) < (⌊S / (1 / 2 : ℚ)⌋ : ℚ) + 1 := Int.lt_floor_add_one _
    have hnn : (0 : ℤ) ≤ ⌊S / (1 / 2 : ℚ)⌋ := by
      apply Int.floor_nonneg.mpr
      positivity
    have hcast : ((sleep_slices loop_time_sec elapsed : ℚ)) = ((⌊S / (1 / 2 : ℚ)⌋ : ℤ) : ℚ) := by
      unfold sleep_slices
      rw [← hSdef]
      exact_mod_cast congrArg (fun z : ℤ => (z : ℚ)) (Int.toNat_of_nonneg hnn)
    constructor
    · rw [hcast]; linarith [hfl, hx]
    · rw [hcast]; linarith [hlt, hx]
  · intro g n h
    have := sleep_loop_all_unset g n 0 (fun k hk => by simpa using h k hk)
    simpa using this
  · intro g n j hj hg hprev
    have := sleep_loop_first_set g j n 0 hj (by simpa using hg) (fun k hk => by simpa using hprev k hk)
    simpa using this
  · intro flag slices fuel τ t mono hτ hle
    have ht : flag t = true := mono τ t hle hτ
    cases fuel with
    | zero => rfl
    | succ m => simp [scheduler, ht]

/-- C8 amended, witness: with five slices available and the flag first set
at the check after slice 2, the loop sleeps exactly three slices and
reports the flag. -/
theorem claim_C8_amended_witness :
    sleep_loop (fun k => decide (k = 2)) 0 5 = (3, true) :=
  claim_C8_amended.2.2.1 (fun k => decide (k = 2)) 5 2 (by norm_num) (by decide) (by decide)

/-- The CAAQMS poll loop produces one outcome per station. -/
theorem pollCaaqmsList_sndLength (fr : ℚ → List Char) (os : Nat → Oracle) :
    ∀ (cs : List Caaqms) (i : Nat), (pollCaaqmsList fr os i cs).2.length = cs.length := by
  intro cs
  induction cs with
  | nil => intro i; rfl
  | cons st rest ih => intro i; simp [pollCaaqmsList, ih (i + 1)]

/-- The CEMS poll loop produces one outcome per station. -/
theorem pollCemsList_sndLength (fr : ℚ → List Char) (os : Nat → Oracle) :
    ∀ (ms : List Cems) (i : Nat), (pollCemsList fr os i ms).2.length = ms.length := by
  intro ms
  induction ms with
  | nil => intro i; rfl
  | cons st rest ih => intro i; simp [pollCemsList, ih (i + 1)]

/-- Each CAAQMS station's outcome is its own `fetch_data` against its own
oracle slot, independent of the other stations. -/
theorem pollCaaqmsList_getElem (fr : ℚ → List Char) (os : Nat → Oracle) :
    ∀ (cs : List Caaqms) (i j : Nat) (h : j < cs.length),
      (pollCaaqmsList fr os i cs).2[j]? =
        some ((Caaqms.fetch_data fr (cs.get ⟨j, h⟩)
                ((cs.get ⟨j, h⟩).name ++ (".txt".data)) (os (i + j))).2) := by
  intro cs
  induction cs with
  | nil => intro i j h; exact absurd h (by simp)
  | cons st rest ih =>
    intro i j h
    cases j with
    | zero => simp [pollCaaqmsList]
    | succ m =>
      have hm : m < rest.length := by simpa using h
      have hrec := ih (i + 1) m hm
      have he : i + 1 + m = i + (m + 1) := by omega
      rw [he] at hrec
      simpa [pollCaaqmsList] using hrec

/-- Each CEMS station's outcome is its own `fetch_data` against its own
oracle slot. -/
theorem pollCemsList_getElem (fr : ℚ → List Char) (os : Nat → Oracle) :
    ∀ (ms : List Cems) (i j : Nat) (h : j < ms.length),
      (pollCemsList fr os i ms).2[j]? =
        some ((Cems.fetch_data fr (ms.get ⟨j, h⟩)
                ((ms.get ⟨j, h⟩).name ++ (".txt".data)) (os (i + j))).2) := by
  intro ms
  induction ms with
  | nil => intro i j h; exact absurd h (by simp)
  | cons st rest ih =>
    intro i j h
    cases j with
    | zero => simp [pollCemsList]
    | succ m =>
      have hm : m < rest.length := by simpa using h
      have hrec := ih (i + 1) m hm
      have he : i + 1 + m = i + (m + 1) := by omega
      rw [he] at hrec
      simpa [pollCemsList] using hrec

/-- `ingestParams` never changes the parameter names or their order. -/
theorem ingestParams_keys (o : Oracle) :
    ∀ (ps : List (List Char × Param)) (i : Nat),
      ((ingestParams o i ps).1).map Prod.fst = ps.map Prod.fst := by
  intro ps
  induction ps with
  | nil => intro i; rfl
  | cons kp rest ih =>
    intro i
    obtain ⟨k, p⟩ := kp
    cases hpt : o.paramText i with
    | error e => simp [ingestParams, hpt]
    | ok v =>
      cases hset : p.set_float_check_value v with
      | error p1 => simp [ingestParams, hpt, hset]
      | ok p1 => simp [ingestParams, hpt, hset, ih (i + 1)]

/-- When some parameter fetch or parse raises, the loop aborts: every
parameter strictly after the failing position `k` is left untouched (the
failing parameter itself may have had `value_raw` assigned before the
raise). -/
theorem ingestParams_abort (o : Oracle) :
    ∀ (ps : List (List Char × Param)) (i : Nat), ((ingestParams o i ps).2).isSome = true →
      ∃ k, k < ps.length ∧ (ingestParams o i ps).1.length = ps.length
        ∧ (ingestParams o i ps).1.drop (k + 1) = ps.drop (k + 1) := by
  intro ps
  induction ps with
  | nil => intro i h; simp [ingestParams] at h
  | cons kp rest ih =>
    intro i h
    obtain ⟨k0, p⟩ := kp
    cases hpt : o.paramText i with
    | error e =>
      exact ⟨0, by simp, by simp [ingestParams, hpt], by simp [ingestParams, hpt]⟩
    | ok v =>
      cases hset : p.set_float_check_value v with
      | error p1 =>
        exact ⟨0, by simp, by simp [ingestParams, hpt, hset],
          by simp [ingestParams, hpt, hset]⟩
      | ok p1 =>
        have h2 : ((ingestParams o (i + 1) rest).2).isSome = true := by
          simpa [ingestParams, hpt, hset] using h
        obtain ⟨k, hk, hlen, hdrop⟩ := ih (i + 1) h2
        refine ⟨k + 1, by simpa using Nat.succ_lt_succ hk, ?_, ?_⟩
        · simp [ingestParams, hpt, hset, hlen]
        · simp [ingestParams, hpt, hset, hdrop]

/-- C6: per-station failure isolation.  (1) Every cycle polls every station
(one outcome per station); (2)-(4) each station's outcome is exactly its own
`fetch_data` against its own oracle slot, unaffected by other stations'
failures; (5)-(7) for a CAAQMS station, an error in the tab click, the title
discovery or any parameter fetch/parse is caught, produces exactly one error
log line containing the station name and the error detail, and leaves the
output file unwritten; (8)-(10) the same three error sites for a CEMS
station; (11)-(12) the same for the tab click and parameter errors of EQMS
(which has no discovery step); (13) a parameter error aborts the loop:
every parameter after the failing one is untouched. -/
theorem claim_C6 :
    (∀ fr cs ms e os, (runCycle fr cs ms e os).2.length = cs.length + ms.length + 1)
      ∧ (∀ fr cs ms e os j (h : j < cs.length),
          (runCycle fr cs ms e os).2[j]? =
            some ((Caaqms.fetch_data fr (cs.get ⟨j, h⟩)
                    ((cs.get ⟨j, h⟩).name ++ (".txt".data)) (os j)).2))
      ∧ (∀ fr cs ms e os j (h : j < ms.length),
          (runCycle fr cs ms e os).2[cs.length + j]? =
            some ((Cems.fetch_data fr (ms.get ⟨j, h⟩)
                    ((ms.get ⟨j, h⟩).name ++ (".txt".data)) (os (cs.length + j))).2))
      ∧ (∀ fr cs ms e os,
          (runCycle fr cs ms e os).2[cs.length + ms.length]? =
            some ((Eqms.fetch_data fr e (("ETP.txt".data)) (os (cs.length + ms.length))).2))
      ∧ (∀ fr st fn o msg, o.tabClick = .error msg →
          Caaqms.fetch_data fr st fn o = (st, [(LogLevel.error, errLine st.name msg)], none))
      ∧ (∀ fr st fn o msg, st.unit = none → o.tabClick = .ok () → o.titleText = .error msg →
          Caaqms.fetch_data fr st fn o = (st, [(LogLevel.error, errLine st.name msg)], none))
      ∧ (∀ fr st fn o st1 fn1 msg, o.tabClick = .ok () →
          Caaqms.discoverStep st fn o = .ok (st1, fn1) →
          (ingestParams o 1 st1.params).2 = some msg →
          Caaqms.fetch_data fr st fn o
            = ({ st1 with params := (ingestParams o 1 st1.params).1 },
               [(LogLevel.error, errLine st1.name msg)], none))
      ∧ (∀ fr st fn o msg, o.tabClick = .error msg →
          Cems.fetch_data fr st fn o = (st, [(LogLevel.error, errLine st.name msg)], none))
      ∧ (∀ fr st fn o msg, st.unit = none → o.tabClick = .ok () → o.titleText = .error msg →
          Cems.fetch_data fr st fn o = (st, [(LogLevel.error, errLine st.name msg)], none))
      ∧ (∀ fr st fn o st1 fn1 msg, o.tabClick = .ok () →
          Cems.discoverStep st fn o = .ok (st1, fn1) →
          (ingestParams o 1 st1.params).2 = some msg →
          Cems.fetch_data fr st fn o
            = ({ st1 with params := (ingestParams o 1 st1.params).1 },
               [(LogLevel.error, errLine st1.name msg)], none))
      ∧ (∀ fr st fn o msg, o.tabClick = .error msg →
          Eqms.fetch_data fr st fn o = (st, [(LogLevel.error, errLine st.name msg)], none))
      ∧ (∀ fr st fn o msg, o.tabClick = .ok () → (ingestParams o 1 st.params).2 = some msg →
          Eqms.fetch_data fr st fn o
            = ({ st with params := (ingestParams o 1 st.params).1 },
               [(LogLevel.error, errLine st.name msg)], none))
      ∧ (∀ o ps i, ((ingestParams o i ps).2).isSome = true →
          ∃ k, k < ps.length ∧ (ingestParams o i ps).1.length = ps.length
            ∧ (ingestParams o i ps).1.drop (k + 1) = ps.drop (k + 1)) := by
  refine ⟨?_, ?_, ?_, ?_, ?_, ?_, ?_, ?_, ?_, ?_, ?_, ?_, ?_⟩
  · intro fr cs ms e os
    simp [runCycle, pollCaaqmsList_sndLength, pollCemsList_sndLength]
    omega
  · intro fr cs ms e os j h
    have hj : j < (pollCaaqmsList fr os 0 cs).2.length := by
      rw [pollCaaqmsList_sndLength]; exact h
    have hj2 : j < ((pollCaaqmsList fr os 0 cs).2 ++ (pollCemsList fr os cs.length ms).2).length := by
      simp [pollCaaqmsList_sndLength, pollCemsList_sndLength]; omega
    show (((pollCaaqmsList fr os 0 cs).2 ++ (pollCemsList fr os cs.length ms).2)
        ++ [(Eqms.fetch_data fr e (("ETP.txt".data)) (os (cs.length + ms.length))).2])[j]? = _
    rw [List.getElem?_append_left hj2, List.getElem?_append_left hj]
    simpa using pollCaaqmsList_getElem fr os cs 0 j h
  · intro fr cs ms e os j h
    have hj : cs.length + j
        < ((pollCaaqmsList fr os 0 cs).2 ++ (pollCemsList fr os cs.length ms).2).length := by
      simp [pollCaaqmsList_sndLength, pollCemsList_sndLength]; omega
    have hge : (pollCaaqmsList fr os 0 cs).2.length ≤ cs.length + j := by
      rw [pollCaaqmsList_sndLength]; omega
    show (((pollCaaqmsList fr os 0 cs).2 ++ (pollCemsList fr os cs.length ms).2)
        ++ [(Eqms.fetch_data fr e (("ETP.txt".data)) (os (cs.length + ms.length))).2])[cs.length + j]? = _
    rw [List.getElem?_append_left hj, List.getElem?_append_right hge,
      pollCaaqmsList_sndLength]
    have he : cs.length + j - cs.length = j := by omega
    rw [he]
    exact pollCemsList_getElem fr os ms cs.length j h
  · intro fr cs ms e os
    have hge : ((pollCaaqmsList fr os 0 cs).2 ++ (pollCemsList fr os cs.length ms).2).length
        ≤ cs.length + ms.length := by
      simp [pollCaaqmsList_sndLength, pollCemsList_sndLength]
    show (((pollCaaqmsList fr os 0 cs).2 ++ (pollCemsList fr os cs.length ms).2)
        ++ [(Eqms.fetch_data fr e (("ETP.txt".data)) (os (cs.length + ms.length))).2])[cs.length + ms.length]? = _
    rw [List.getElem?_append_right hge]
    have he : cs.length + ms.length
        - ((pollCaaqmsList fr os 0 cs).2 ++ (pollCemsList fr os cs.length ms).2).length = 0 := by
      simp [pollCaaqmsList_sndLength, pollCemsList_sndLength]
    rw [he]
    rfl
  · intro fr st fn o msg htab
    simp [Caaqms.fetch_data, htab]
  · intro fr st fn o msg hunit htab htitle
    simp [Caaqms.fetch_data, htab, Caaqms.discoverStep, hunit, htitle, Except.map]
  · intro fr st fn o st1 fn1 msg htab hdisc hing
    simp [Caaqms.fetch_data, htab, hdisc, hing]
  · intro fr st fn o msg htab
    simp [Cems.fetch_data, htab]
  · intro fr st fn o msg hunit htab htitle
    simp [Cems.fetch_data, htab, Cems.discoverStep, hunit, htitle, Except.map]
  · intro fr st fn o st1 fn1 msg htab hdisc hing
    simp [Cems.fetch_data, htab, hdisc, hing]
  · intro fr st fn o msg htab
    simp [Eqms.fetch_data, htab]
  · intro fr st fn o msg htab hing
    simp [Eqms.fetch_data, htab, hing]
  · intro o ps i h
    exact ingestParams_abort o ps i h

/-- C6 witness: a CAAQMS station whose tab click raises `"boom"` produces
exactly one error line naming the station and no file write. -/
theorem claim_C6_witness :
    Caaqms.fetch_data frW (Caaqms.init ("AAQMS ".data)) ("AAQMS .txt".data) oTabFail
      = (Caaqms.init ("AAQMS ".data),
         [(LogLevel.error, errLine ("AAQMS ".data) ("boom".data))], none) :=
  claim_C6.2.2.2.2.1 frW (Caaqms.init ("AAQMS ".data)) ("AAQMS .txt".data) oTabFail
    ("boom".data) rfl

/-- C7 counterexample: a fully successful EQMS poll (every element reads
`"7"`) writes the line `"ETP Data:- ..."` — lowercase `"Data:-"` from
`Eqms.__str__` — which is not of the claimed shape
`"<station name> DATA:- ..."`. -/
theorem claim_C7_counterexample :
    (Eqms.fetch_data frC7 (Eqms.init ("ETP".data)) ("ETP.txt".data) oAllSeven).2.2
        = some (("ETP.txt".data), eqmsLineC7)
      ∧ eqmsLineC7 ≠ c7_specLine ("ETP".data) c7_parts := by
  decide

/-- C7 amended: a successful poll fully overwrites the station's output file
with exactly one line listing the parameters in construction order, of the
form `"<name> DATA:- PARAM1: <rendering1>, ..."` for CAAQMS (conjunct 1)
and CEMS (conjunct 2) stations but `"<name> Data:- ..."` (lowercase) for the
EQMS station (conjunct 3); each healthy parameter renders as
`"<parsedValue> <unit>"` (conjunct 5), and the parameter names and order are
never changed by a poll (conjunct 4). -/
theorem claim_C7_amended :
    (∀ fr st fn o st1 fn1, o.tabClick = .ok () → Caaqms.discoverStep st fn o = .ok (st1, fn1) →
        (ingestParams o 1 st1.params).2 = none →
        Caaqms.fetch_data fr st fn o
          = ({ st1 with params := (ingestParams o 1 st1.params).1 },
             [(LogLevel.info,
               st1.name ++ (" DATA:- ".data)
                 ++ pyJoin (", ".data)
                     ((ingestParams o 1 st1.params).1.map
                       (fun kv => pyUpper kv.1 ++ (": ".data) ++ Param.str fr kv.2)))],
             some (fn1,
               st1.name ++ (" DATA:- ".data)
                 ++ pyJoin (", ".data)
                     ((ingestParams o 1 st1.params).1.map
                       (fun kv => pyUpper kv.1 ++ (": ".data) ++ Param.str fr kv.2)))))
      ∧ (∀ fr st fn o st1 fn1, o.tabClick = .ok () → Cems.discoverStep st fn o = .ok (st1, fn1) →
          (ingestParams o 1 st1.params).2 = none →
          Cems.fetch_data fr st fn o
            = ({ st1 with params := (ingestParams o 1 st1.params).1 },
               [(LogLevel.info,
                 st1.name ++ (" DATA:- ".data)
                   ++ pyJoin (", ".data)
                       ((ingestParams o 1 st1.params).1.map
                         (fun kv => pyUpper kv.1 ++ (": ".data) ++ Param.str fr kv.2)))],
               some (fn1,
                 st1.name ++ (" DATA:- ".data)
                   ++ pyJoin (", ".data)
                       ((ingestParams o 1 st1.params).1.map
                         (fun kv => pyUpper kv.1 ++ (": ".data) ++ Param.str fr kv.2)))))
      ∧ (∀ fr st fn o, o.tabClick = .ok () → (ingestParams o 1 st.params).2 = none →
          Eqms.fetch_data fr st fn o
            = ({ st with params := (ingestParams o 1 st.params).1 },
               [(LogLevel.info,
                 st.name ++ (" Data:- ".data)
                   ++ pyJoin (", ".data)
                       ((ingestParams o 1 st.params).1.map
                         (fun kv => pyUpper kv.1 ++ (": ".data) ++ Param.str fr kv.2)))],
               some (fn,
                 st.name ++ (" Data:- ".data)
                   ++ pyJoin (", ".data)
                       ((ingestParams o 1 st.params).1.map
                         (fun kv => pyUpper kv.1 ++ (": ".data) ++ Param.str fr kv.2)))))
      ∧ (∀ o ps i, ((ingestParams o i ps).1).map Prod.fst = ps.map Prod.fst)
      ∧ (∀ fr raw q u,
          Param.str fr
              { value_raw := some raw, value_parsed := some q, unit := u, is_health_ok := true }
            = fr q ++ ' ' :: u) := by
  refine ⟨?_, ?_, ?_, ?_, ?_⟩
  · intro fr st fn o st1 fn1 htab hdisc hing
    simp [Caaqms.fetch_data, htab, hdisc, hing, Caaqms.str]
  · intro fr st fn o st1 fn1 htab hdisc hing
    simp [Cems.fetch_data, htab, hdisc, hing, Cems.str]
  · intro fr st fn o htab hing
    simp [Eqms.fetch_data, htab, hing, Eqms.str]
  · intro o ps i
    exact ingestParams_keys o ps i
  · intro fr raw q u
    rfl

/-- C7 amended, witness: the successful EQMS poll of the counterexample run,
written out in full: the state, the info log line and the file write all
carry the lowercase `"Data:-"` line. -/
theorem claim_C7_amended_witness :
    Eqms.fetch_data frC7 (Eqms.init ("ETP".data)) ("ETP.txt".data) oAllSeven
      = ({ Eqms.init ("ETP".data) with
             params := (ingestParams oAllSeven 1 (Eqms.init ("ETP".data)).params).1 },
         [(LogLevel.info, eqmsLineC7)], some (("ETP.txt".data), eqmsLineC7)) :=
  claim_C7_amended.2.2.1 frC7 (Eqms.init ("ETP".data)) ("ETP.txt".data) oAllSeven rfl (by decide)
